import Mathlib

/-!
Shallow embedding of `users/management/commands/create_user.py`: a Django
management command whose `handle` method runs
`User.objects.get_or_create(email="test@test.com")` and then writes the
success message `"User added"` to standard output.

The persistent store is modelled as the list of persisted rows.  The schema
of `django.contrib.auth.models.User` declares `email` as an `EmailField`
with `blank=True` and without `unique=True`, so the store's insert does not
reject a row whose email duplicates an existing one; it declares `username`
as a `CharField` with `unique=True`, so the store rejects an insert whose
username duplicates an existing row's — and a `CharField` not supplied at
creation defaults to the empty string, so every row this command creates
carries `username=""`.  The non-key fields with static declared defaults
are carried explicitly (`date_joined`, whose declared default is the
callable `timezone.now` evaluated at creation time, has no static default
and is outside this model).
-/

/-- Non-key fields of the `User` schema that carry static declared
defaults. -/
structure UserFields where
  username : String
  firstName : String
  lastName : String
  password : String
  isStaff : Bool
  isActive : Bool
  isSuperuser : Bool
  deriving Repr, DecidableEq

/-- The declared defaults of the non-key fields, as the `User` schema
declares them. -/
def defaultUserFields : UserFields :=
  ⟨"", "", "", "", false, true, false⟩

/-- A persisted user record: the email key plus the non-key fields. -/
structure UserRecord where
  email : String
  fields : UserFields
  deriving Repr, DecidableEq

/-- The persistent store, as the sequence of persisted rows. -/
abbrev Store := List UserRecord

/-- Rows of the store whose email equals `e`: the lookup that the ORM
`get(email=e)` performs. -/
def matching (s : Store) (e : String) : List UserRecord :=
  s.filter (fun r => r.email == e)

/-- Does some stored row already use the username `u`?  The `username`
column is declared `unique=True` in the schema, so the store rejects an
insert that would duplicate an existing username. -/
def usernameTaken (s : Store) (u : String) : Bool :=
  s.any (fun r => r.fields.username == u)

/-- Errors surfaced by the store layer.  `storeUnavailable` is the spec's
name for a failed connection (the connection layer is not part of the
source file); `multipleObjectsReturned` is the error the ORM lookup raises
when more than one row matches; `integrityError` is the error the store
raises when an insert violates the schema's UNIQUE constraint on
`username`. -/
inductive StoreError where
  | storeUnavailable
  | multipleObjectsReturned
  | integrityError
  deriving Repr, DecidableEq

/-- Persist one row, as the store constrained by the schema accepts it:
`username` is backed by a UNIQUE constraint, so an insert duplicating an
existing row's username fails with the integrity error and stores nothing;
`email` carries no constraint, so a row whose email already occurs is
accepted. -/
def insertRecord (s : Store) (r : UserRecord) : Except StoreError Store :=
  if usernameTaken s r.fields.username then
    Except.error StoreError.integrityError
  else
    Except.ok (s ++ [r])

/-- The ORM call of the source line, `User.objects.get_or_create(email=e)`.
Modelled from the spec: whether the store can be reached is not decided by
the source file, so availability of this store access is the explicit
argument `avail`; an unreachable store fails with `storeUnavailable`.  On a
reachable store the call follows Django's `get_or_create`: look the row up
by email; if exactly one row matches, return it unchanged with
`created = false`; if several match, fail with the multiple-objects error;
if none matches, insert a fresh row with `email` set and every other field
at its declared default (in particular `username = ""`) and return it with
`created = true` — and when that insert fails with the integrity error
(its default username colliding with an existing row's), retry the lookup
by email on the store the failed insert left unchanged, returning a now
present single row as the found case and otherwise re-raising the
integrity error (or the multiple-objects error, had several rows
appeared). -/
def get_or_create (avail : Bool) (s : Store) (e : String) :
    Except StoreError (Store × UserRecord × Bool) :=
  if avail then
    match matching s e with
    | [] =>
      match insertRecord s ⟨e, defaultUserFields⟩ with
      | Except.ok s' => Except.ok (s', ⟨e, defaultUserFields⟩, true)
      | Except.error err =>
        match matching s e with
        | [] => Except.error err
        | [r] => Except.ok (s, r, false)
        | _ => Except.error StoreError.multipleObjectsReturned
    | [r] => Except.ok (s, r, false)
    | _ => Except.error StoreError.multipleObjectsReturned
  else
    Except.error StoreError.storeUnavailable

/-- The spec's name, `ensureUser`, for the find-or-create operation the
source performs. -/
def ensureUser (avail : Bool) (s : Store) (e : String) :
    Except StoreError (Store × UserRecord × Bool) :=
  get_or_create avail s e

/-- Result of one invocation of the command: the process exit code, the
lines written to standard output, the error that escaped (if any), and the
store after the call. -/
structure CommandResult where
  exitCode : Nat
  stdout : List String
  err : Option StoreError
  store : Store
  deriving Repr, DecidableEq

/-- The fixed success message the command writes. -/
def successMessage : String := "User added"

/-- `Command.handle` of `create_user.py`: the command-line arguments are
ignored (the command declares none), `get_or_create` is called once with
the literal email `"test@test.com"`, and on success the fixed message is
written.  Modelled from the spec: the surrounding process entry point (not
under the source tree) exits 0 when `handle` returns and non-zero when an
error escapes, and performs no retry — only the first entry of the
availability schedule `sched` is ever consulted. -/
def handle (args : List String) (sched : List Bool) (s : Store) : CommandResult :=
  match get_or_create (sched.headD false) s "test@test.com" with
  | Except.ok (s', _, _) => ⟨0, [successMessage], none, s'⟩
  | Except.error e => ⟨1, [], some e, s⟩

/-- Store states reachable from the empty store by runs of the operation.
Failed calls return no store, i.e. leave it unchanged, so only successful
calls step. -/
inductive Reachable : Store → Prop where
  | empty : Reachable []
  | step (avail : Bool) (e : String) (s s' : Store) (r : UserRecord) (c : Bool) :
      Reachable s → ensureUser avail s e = Except.ok (s', r, c) → Reachable s'

/-- What a uniqueness constraint on `email` would enforce at one concrete
insert: an insert the store accepts cannot leave that row's email stored
more than once. -/
def emailUniqueConstraintAt (s : Store) (r : UserRecord) : Prop :=
  ∀ s', insertRecord s r = Except.ok s' → (matching s' r.email).length ≤ 1

/-- The row the command persists on its first successful run. -/
def testRecord : UserRecord := ⟨"test@test.com", defaultUserFields⟩

/-- A row with the same email `"test@test.com"` but a distinct username
`"u"`: the username constraint does not block inserting it next to
`testRecord`, so only a constraint on `email` could. -/
def duplicateEmailRecord : UserRecord :=
  ⟨"test@test.com", ⟨"u", "", "", "", false, true, false⟩⟩

lemma matching_append (s : Store) (r : UserRecord) (e : String) :
    matching (s ++ [r]) e =
      matching s e ++ if r.email == e then [r] else [] := by
  by_cases h : r.email = e <;>
    simp [matching, List.filter_append, h]

lemma insertRecord_ok (s s' : Store) (r : UserRecord)
    (h : insertRecord s r = Except.ok s') : s' = s ++ [r] := by
  unfold insertRecord at h
  split at h
  · exact absurd h (by simp)
  · simp only [Except.ok.injEq] at h
    exact h.symm

/-- C3: on an initially empty, reachable store, the call returns
`created = true` and the resulting store holds exactly the persisted row
with email `"test@test.com"`. -/
theorem c3_empty_store_creates :
    ensureUser true [] "test@test.com" = Except.ok ([testRecord], testRecord, true) ∧
    matching [testRecord] "test@test.com" = [testRecord] := by
  constructor
  · rfl
  · simp [matching, testRecord]

/-- C1 counterexample: a store the operation itself produces from empty
(one default-username row at another email) holds no row for `"a@b.com"`,
yet the first call there does not return `created = true`: the insert
collides with the existing default username `""` and the call fails with
the integrity error, storing nothing. -/
theorem c1_default_username_collision :
    ensureUser true [] "x@y.com" =
      Except.ok ([⟨"x@y.com", defaultUserFields⟩],
        ⟨"x@y.com", defaultUserFields⟩, true) ∧
    matching [⟨"x@y.com", defaultUserFields⟩] "a@b.com" = [] ∧
    ensureUser true [⟨"x@y.com", defaultUserFields⟩] "a@b.com" =
      Except.error StoreError.integrityError :=
  ⟨rfl, rfl, rfl⟩

/-- C1 (amended): on any store holding no row for the email `e` and no row
with the default username `""` (in particular the empty store), two
sequential calls leave exactly one row with that email, the first call
returning `created = true` and the second `created = false`; without the
username condition the first call can instead fail with the integrity
error. -/
theorem c1_sequential_idempotence (s : Store) (e : String)
    (h : matching s e = [])
    (hu : usernameTaken s defaultUserFields.username = false) :
    ensureUser true s e =
      Except.ok (s ++ [⟨e, defaultUserFields⟩], ⟨e, defaultUserFields⟩, true) ∧
    ensureUser true (s ++ [⟨e, defaultUserFields⟩]) e =
      Except.ok (s ++ [⟨e, defaultUserFields⟩], ⟨e, defaultUserFields⟩, false) ∧
    (matching (s ++ [⟨e, defaultUserFields⟩]) e).length = 1 := by
  have hm : matching (s ++ [⟨e, defaultUserFields⟩]) e =
      [⟨e, defaultUserFields⟩] := by
    rw [matching_append, h]
    simp
  refine ⟨?_, ?_, ?_⟩
  · simp [ensureUser, get_or_create, h, insertRecord, hu]
  · simp [ensureUser, get_or_create, hm]
  · simp [hm]

/-- C1 witness: the two sequential calls at `"a@b.com"` on the empty
store. -/
theorem c1_sequential_idempotence_witness :
    ensureUser true [] "a@b.com" =
      Except.ok ([] ++ [⟨"a@b.com", defaultUserFields⟩],
        ⟨"a@b.com", defaultUserFields⟩, true) ∧
    ensureUser true ([] ++ [⟨"a@b.com", defaultUserFields⟩]) "a@b.com" =
      Except.ok ([] ++ [⟨"a@b.com", defaultUserFields⟩],
        ⟨"a@b.com", defaultUserFields⟩, false) ∧
    (matching ([] ++ [⟨"a@b.com", defaultUserFields⟩]) "a@b.com").length = 1 :=
  c1_sequential_idempotence [] "a@b.com" rfl rfl

/-- C2 (amended): in every store state reachable from the empty store by
runs of the operation, at most one row exists per distinct email; the
invariant is maintained by the operation's lookup, not by a schema
constraint. -/
theorem c2_reachable_at_most_one (s : Store) (h : Reachable s) (e : String) :
    (matching s e).length ≤ 1 := by
  induction h with
  | empty => simp [matching]
  | step avail e' s₀ s' r c hr heq ih =>
    unfold ensureUser get_or_create at heq
    cases avail with
    | false => simp at heq
    | true =>
      simp only [if_true] at heq
      split at heq
      · rename_i hm
        split at heq
        · rename_i s₁ hins
          simp only [Except.ok.injEq, Prod.mk.injEq] at heq
          obtain ⟨rfl, -, -⟩ := heq
          rw [insertRecord_ok _ _ _ hins, matching_append]
          by_cases he : e' = e
          · subst he
            simp [hm]
          · have hne : ((⟨e', defaultUserFields⟩ : UserRecord).email == e) = false :=
              beq_eq_false_iff_ne.mpr he
            rw [hne]
            simpa using ih
        · split at heq
          · exact absurd heq (by simp)
          · rename_i r0 hm2
            exact absurd hm2 (by simp)
          · exact absurd heq (by simp)
      · rename_i r0 hm
        simp only [Except.ok.injEq, Prod.mk.injEq] at heq
        obtain ⟨rfl, -, -⟩ := heq
        exact ih
      · exact absurd heq (by simp)

/-- C2 witness: the invariant instantiated at a reachable one-row store. -/
theorem c2_reachable_at_most_one_witness :
    (matching [testRecord] "test@test.com").length ≤ 1 :=
  c2_reachable_at_most_one [testRecord]
    (Reachable.step true "test@test.com" [] [testRecord] testRecord true
      Reachable.empty rfl)
    "test@test.com"

/-- C2 counterexample: the store's insert accepts a row whose email
duplicates an existing one as long as its username is distinct — the
schema backs `email` with no uniqueness constraint, so the claimed
constraint fails at this concrete insert. -/
theorem c2_no_email_uniqueness_constraint :
    ¬ emailUniqueConstraintAt [testRecord] duplicateEmailRecord := by
  intro h
  exact absurd (h ([testRecord] ++ [duplicateEmailRecord]) rfl) (by decide)

/-- C4 (amended): on a store holding exactly one row with email
`"test@test.com"`, the call returns that row with `created = false` and
the store unchanged; and in every case a successful call only appends to
the store, so no existing row is ever mutated or deleted. -/
theorem c4_existing_row_frame (s : Store) (r : UserRecord)
    (h : matching s "test@test.com" = [r]) :
    ensureUser true s "test@test.com" = Except.ok (s, r, false) ∧
    ∀ avail e s' r' c, ensureUser avail s e = Except.ok (s', r', c) →
      ∃ t, s' = s ++ t := by
  constructor
  · simp [ensureUser, get_or_create, h]
  · intro avail e s' r' c hc
    unfold ensureUser get_or_create at hc
    cases avail with
    | false => simp at hc
    | true =>
      simp only [if_true] at hc
      split at hc
      · split at hc
        · rename_i s₁ hins
          simp only [Except.ok.injEq, Prod.mk.injEq] at hc
          obtain ⟨rfl, -, -⟩ := hc
          exact ⟨[⟨e, defaultUserFields⟩], insertRecord_ok _ _ _ hins⟩
        · split at hc
          · exact absurd hc (by simp)
          · simp only [Except.ok.injEq, Prod.mk.injEq] at hc
            obtain ⟨rfl, -, -⟩ := hc
            exact ⟨[], by simp⟩
          · exact absurd hc (by simp)
      · simp only [Except.ok.injEq, Prod.mk.injEq] at hc
        obtain ⟨rfl, -, -⟩ := hc
        exact ⟨[], by simp⟩
      · exact absurd hc (by simp)

/-- C4 witness: the found case and the frame property at the one-row
store. -/
theorem c4_existing_row_frame_witness :
    ensureUser true [testRecord] "test@test.com" =
      Except.ok ([testRecord], testRecord, false) ∧
    ∀ avail e s' r' c,
      ensureUser avail [testRecord] e = Except.ok (s', r', c) →
        ∃ t, s' = [testRecord] ++ t :=
  c4_existing_row_frame [testRecord] testRecord (by simp [matching, testRecord])

/-- C4 counterexample: a store that does contain a row with email
`"test@test.com"` — twice, which the code does not prevent — on which the
call does not return `created = false` but fails with the multiple-objects
error. -/
theorem c4_duplicate_store_errors :
    testRecord ∈ ([testRecord, testRecord] : Store) ∧
    ensureUser true [testRecord, testRecord] "test@test.com" =
      Except.error StoreError.multipleObjectsReturned := by
  constructor
  · simp
  · rfl

/-- C5: on an unreachable store the call fails with `storeUnavailable`, the
error escapes the command, no row is persisted (the store is returned
unchanged) and no success output is written, the exit code is non-zero, and
no retry happens: the result is the failure whatever availability any later
attempt would have found. -/
theorem c5_store_unavailable (args : List String) (rest : List Bool) (s : Store) :
    ensureUser false s "test@test.com" =
      Except.error StoreError.storeUnavailable ∧
    handle args (false :: rest) s =
      ⟨1, [], some StoreError.storeUnavailable, s⟩ ∧
    (handle args (false :: rest) s).exitCode ≠ 0 := by
  refine ⟨rfl, rfl, ?_⟩
  simp [handle, get_or_create]

/-- C5 witness: the unavailable-store failure on the empty store, with a
schedule whose later entry would have succeeded. -/
theorem c5_store_unavailable_witness :
    ensureUser false [] "test@test.com" =
      Except.error StoreError.storeUnavailable ∧
    handle [] [false, true] [] =
      ⟨1, [], some StoreError.storeUnavailable, []⟩ ∧
    (handle [] [false, true] []).exitCode ≠ 0 :=
  c5_store_unavailable [] [true] []

/-- C6: the command ignores its arguments, is exactly one `get_or_create`
call at the literal email `"test@test.com"`, writes the fixed success
message and exits 0 on success, and propagates every store error unchanged
with no retry at this layer. -/
theorem c6_caller_wiring (args args' : List String) (sched : List Bool) (s : Store) :
    handle args sched s = handle args' sched s ∧
    handle args sched s =
      (match ensureUser (sched.headD false) s "test@test.com" with
       | Except.ok (s', _, _) => (⟨0, [successMessage], none, s'⟩ : CommandResult)
       | Except.error e => ⟨1, [], some e, s⟩) ∧
    (∀ s' r c,
      ensureUser (sched.headD false) s "test@test.com" = Except.ok (s', r, c) →
        handle args sched s = ⟨0, [successMessage], none, s'⟩) ∧
    (∀ e, ensureUser (sched.headD false) s "test@test.com" = Except.error e →
        handle args sched s = ⟨1, [], some e, s⟩) := by
  refine ⟨rfl, rfl, ?_, ?_⟩
  · intro s' r c h
    unfold ensureUser at h
    unfold handle
    rw [h]
  · intro e h
    unfold ensureUser at h
    unfold handle
    rw [h]

/-- C6 witness: the success path on the empty store, with the arguments
varied. -/
theorem c6_caller_wiring_witness :
    handle [] [true] [] = ⟨0, [successMessage], none, [testRecord]⟩ :=
  (c6_caller_wiring [] ["ignored"] [true] []).2.2.1 [testRecord] testRecord true rfl

/-- C7: every row the operation reports as created has its email set to the
given email, every other field at its declared default, and is exactly the
row the store accepted and appended. -/
theorem c7_created_row_defaults (avail : Bool) (s s' : Store) (e : String)
    (r : UserRecord)
    (h : ensureUser avail s e = Except.ok (s', r, true)) :
    r.email = e ∧ r.fields = defaultUserFields ∧
    insertRecord s r = Except.ok s' := by
  unfold ensureUser get_or_create at h
  cases avail with
  | false => simp at h
  | true =>
    simp only [if_true] at h
    split at h
    · split at h
      · rename_i s₁ hins
        simp only [Except.ok.injEq, Prod.mk.injEq] at h
        obtain ⟨h1, h2, -⟩ := h
        subst h1
        subst h2
        exact ⟨rfl, rfl, hins⟩
      · split at h
        · exact absurd h (by simp)
        · simp only [Except.ok.injEq, Prod.mk.injEq] at h
          exact absurd h.2.2 (by simp)
        · exact absurd h (by simp)
    · simp only [Except.ok.injEq, Prod.mk.injEq] at h
      exact absurd h.2.2 (by simp)
    · exact absurd h (by simp)

/-- C7 witness: the row created at `"a@b.com"` on the empty store. -/
theorem c7_created_row_defaults_witness :
    (⟨"a@b.com", defaultUserFields⟩ : UserRecord).email = "a@b.com" ∧
    (⟨"a@b.com", defaultUserFields⟩ : UserRecord).fields = defaultUserFields ∧
    insertRecord [] ⟨"a@b.com", defaultUserFields⟩ =
      Except.ok [⟨"a@b.com", defaultUserFields⟩] :=
  c7_created_row_defaults true [] [⟨"a@b.com", defaultUserFields⟩]
    "a@b.com" ⟨"a@b.com", defaultUserFields⟩ rfl

/-- C9: whenever the call succeeds the command writes the same fixed
message and exits 0, whether a row was created or one already existed —
the `created` result is discarded. -/
theorem c9_output_ignores_created (args : List String) (sched : List Bool)
    (s s' : Store) (r : UserRecord) (c : Bool)
    (h : ensureUser (sched.headD false) s "test@test.com" = Except.ok (s', r, c)) :
    (handle args sched s).stdout = [successMessage] ∧
    (handle args sched s).exitCode = 0 ∧
    (handle args sched s).err = none := by
  unfold ensureUser at h
  unfold handle
  rw [h]
  exact ⟨rfl, rfl, rfl⟩

/-- C9 witness: the found path (`created = false`, non-default stored row)
writes the same fixed message. -/
theorem c9_output_ignores_created_witness :
    (handle [] [true] [⟨"test@test.com", ⟨"u", "", "", "", false, true, false⟩⟩]).stdout =
      [successMessage] ∧
    (handle [] [true] [⟨"test@test.com", ⟨"u", "", "", "", false, true, false⟩⟩]).exitCode = 0 ∧
    (handle [] [true] [⟨"test@test.com", ⟨"u", "", "", "", false, true, false⟩⟩]).err = none :=
  c9_output_ignores_created [] [true]
    [⟨"test@test.com", ⟨"u", "", "", "", false, true, false⟩⟩]
    [⟨"test@test.com", ⟨"u", "", "", "", false, true, false⟩⟩]
    ⟨"test@test.com", ⟨"u", "", "", "", false, true, false⟩⟩ false rfl

/-- C10: on a store holding more than one row with email
`"test@test.com"`, the lookup fails with the multiple-objects error, the
error escapes, no success message is written and no row is inserted. -/
theorem c10_multiple_rows_error (s : Store) (args : List String) (rest : List Bool)
    (h : 2 ≤ (matching s "test@test.com").length) :
    ensureUser true s "test@test.com" =
      Except.error StoreError.multipleObjectsReturned ∧
    handle args (true :: rest) s =
      ⟨1, [], some StoreError.multipleObjectsReturned, s⟩ := by
  have hm : ∀ r0 tl, matching s "test@test.com" ≠ [] ∧
      (matching s "test@test.com" = r0 :: tl → tl ≠ []) := by
    intro r0 tl
    constructor
    · intro hnil
      rw [hnil] at h
      simp at h
    · intro hc hnil
      rw [hc, hnil] at h
      simp at h
  rcases hx : matching s "test@test.com" with _ | ⟨r0, _ | ⟨r1, tl⟩⟩
  · exact absurd hx (hm testRecord []).1
  · exact absurd rfl ((hm r0 []).2 hx)
  · constructor
    · simp [ensureUser, get_or_create, hx]
    · simp [handle, get_or_create, hx]

/-- C10 witness: the duplicated store that the schema admits. -/
theorem c10_multiple_rows_error_witness :
    ensureUser true [testRecord, testRecord] "test@test.com" =
      Except.error StoreError.multipleObjectsReturned ∧
    handle [] [true] [testRecord, testRecord] =
      ⟨1, [], some StoreError.multipleObjectsReturned, [testRecord, testRecord]⟩ :=
  c10_multiple_rows_error [testRecord, testRecord] [] [] (by decide)
